import Mathlib

/- Verification of the task-buffering and structured-commit pipeline of a
   Telegram task bot (src/main.py, src/ai.py, src/sheets_api.py).

   Python string primitives are modelled character-exactly on `List Char`:
   `str.lower` for the alphabets the program uses, `str.strip`,
   `str.splitlines` (for `\n`-separated input), `str.startswith`,
   the `in` substring test, and slicing by character count. -/

set_option maxRecDepth 8192

/-- Lowercasing one character as Python `str.lower` does on the characters
this program manipulates: ASCII letters and the Cyrillic block, including
the Ukrainian letters Є, І, Ї, Ґ.  Other characters are left fixed. -/
def pyLowerChar (c : Char) : Char :=
  let n := c.toNat
  if 65 ≤ n ∧ n ≤ 90 then Char.ofNat (n + 32)
  else if 0x400 ≤ n ∧ n ≤ 0x40F then Char.ofNat (n + 0x50)
  else if 0x410 ≤ n ∧ n ≤ 0x42F then Char.ofNat (n + 0x20)
  else if n = 0x490 then Char.ofNat 0x491
  else c

/-- Python `s.lower()`. -/
def pyLower (s : String) : String :=
  String.mk (s.data.map pyLowerChar)

/-- Whitespace trimming on a character list: Python `str.strip()`. -/
def trimChars (l : List Char) : List Char :=
  ((l.dropWhile Char.isWhitespace).reverse.dropWhile Char.isWhitespace).reverse

/-- Python `s.strip()`. -/
def pyStrip (s : String) : String :=
  String.mk (trimChars s.data)

/-- Split a character list at newline characters (Python `str.splitlines`
for newline-separated text). -/
def splitNl : List Char → List (List Char)
  | [] => [[]]
  | c :: cs =>
    if c = '\n' then [] :: splitNl cs
    else
      match splitNl cs with
      | [] => [[c]]
      | l :: ls => (c :: l) :: ls

/-- The stripped, non-empty lines of the input: main.py line 118,
`[ln.strip() for ln in s.splitlines() if ln.strip()]`. -/
def linesOf (s : String) : List String :=
  ((splitNl s.data).map (fun l => String.mk (trimChars l))).filter
    (fun ln => decide (ln ≠ ""))

/-- Python `s.startswith(p)`. -/
def strStartsWith (s p : String) : Bool :=
  p.data.isPrefixOf s.data

/-- Case-insensitive label test: main.py lines 123-124,
`ln.lower().startswith(label.lower())`. -/
def startsWithCI (ln lab : String) : Bool :=
  strStartsWith (pyLower ln) (pyLower lab)

/-- Python substring membership `needle in hay` on character lists. -/
def subOccurs (needle : List Char) : List Char → Bool
  | [] => needle.isEmpty
  | c :: cs => needle.isPrefixOf (c :: cs) || subOccurs needle cs

/-- Python slicing `s[n:]` by character count. -/
def dropChars (s : String) (n : Nat) : String :=
  String.mk (s.data.drop n)

/-- Python `"\n".join(l)`. -/
def joinNl : List String → String
  | [] => ""
  | [x] => x
  | x :: xs => x ++ "\n" ++ joinNl xs

/-- The field scan `take(prefix)` of `_parse_ai_structured_text`
(main.py lines 121-126): the first line whose lowercase form starts with
the lowercase label yields the remainder after the label, stripped;
otherwise the empty string. -/
def takeField (lines : List String) (lab : String) : String :=
  match lines.find? (fun ln => startsWithCI ln lab) with
  | some ln => pyStrip (dropChars ln lab.length)
  | none => ""

/-- The description scan of `_parse_ai_structured_text` (main.py lines
133-140): locate the first line starting with the description label and
return its remainder (stripped) together with all subsequent lines. -/
def descExtract : List String → Option (String × List String)
  | [] => none
  | ln :: rest =>
    if startsWithCI ln "Опис:" then
      some (pyStrip (dropChars ln (String.length "Опис:")), rest)
    else descExtract rest

/-- Tag normalization of `_parse_ai_structured_text` (main.py lines
148-151): default to `#інше` when empty, then prepend `#` when missing. -/
def normalizeTag (t : String) : String :=
  let tag := if t = "" then "#інше" else t
  if tag ≠ "" ∧ strStartsWith tag "#" = false then "#" ++ tag else tag

/-- Priority derivation of `_parse_ai_structured_text` (main.py lines
154-162): substring matching on the lowercased raw priority text. -/
def normalizePriority (p : String) : String :=
  let pr := pyLower p
  if subOccurs ("висок").data pr.data then "високий"
  else if subOccurs ("сер").data pr.data then "середній"
  else if subOccurs ("звич").data pr.data ∨ pr = "" then "звичайний"
  else "звичайний"

/-- The validated field record produced by the parser (spec: StructuredTask). -/
structure Fields where
  name : String
  tag : String
  deadline : String
  priority : String
  description : String
deriving Repr, DecidableEq

/-- The multi-line description of `_parse_ai_structured_text` (main.py
lines 132-143): join the first description line's remainder with every
subsequent line and strip; fall back to the single-line scan when the
label never occurs. -/
def rawDescription (lines : List String) : String :=
  match descExtract lines with
  | some (first, rest) => pyStrip (joinNl (first :: rest))
  | none => takeField lines "Опис:"

/-- The normalized record assembled by `_parse_ai_structured_text`
(main.py lines 128-167). -/
def parsedFields (s : String) : Fields :=
  let lines := linesOf s
  { name := takeField lines "Назва:"
    tag := normalizeTag (takeField lines "Тег:")
    deadline := if takeField lines "Дедлайн:" = "" then "не вказано"
                else takeField lines "Дедлайн:"
    priority := normalizePriority (takeField lines "Пріоритет:")
    description := if rawDescription lines = "" then "(без опису)"
                   else rawDescription lines }

/-- The parser `_parse_ai_structured_text` (main.py lines 104-167):
rejects empty input (line 115-116) and input whose Name field is empty
after scanning (lines 146-147); otherwise returns the normalized record. -/
def parseAiStructuredText (s : String) : Option Fields :=
  if s = "" then none
  else if takeField (linesOf s) "Назва:" = "" then none
  else some (parsedFields s)

/-- Buffer capacity `MAX_BUFFER_ITEMS` (main.py line 42). -/
def MAX_BUFFER_ITEMS : Nat := 3

/-- Per-conversation session state: the draft buffer `context.user_data["buffer"]`
(main.py lines 61-62) and the tracked last-prompt identity
`(last_kb_chat_id, last_kb_message_id)` (main.py lines 98-99). -/
structure Session where
  buffer : List String
  lastKb : Option (Nat × Nat)
deriving Repr, DecidableEq

/-- Inbound append events.  A text message carries the raw message text
(main.py line 183); photo, voice and audio-document events carry the
recognizer result, `none` when recognition failed or raised
(main.py lines 202, 224, 247). -/
inductive InboundEvent where
  | textMsg (raw : String)
  | photoMsg (ocr : Option String)
  | voiceMsg (stt : Option String)
  | audioDocMsg (stt : Option String)
deriving Repr, DecidableEq

/-- The stripped fragment an inbound event offers to the buffer:
`(update.message.text or "").strip()` resp. `(recognized or "").strip()`. -/
def eventText : InboundEvent → String
  | .textMsg raw => pyStrip raw
  | .photoMsg r => pyStrip (r.getD "")
  | .voiceMsg r => pyStrip (r.getD "")
  | .audioDocMsg r => pyStrip (r.getD "")

/-- Outcome reported to the user by an inbound handler. -/
inductive InboundOutcome where
  | notRecognized
  | bufferFull
  | added
deriving Repr, DecidableEq

/-- An inbound handler (main.py `text_message`, `photo_message`,
`voice_message`, `audio_document_message`, lines 182-259): empty content is
reported and discarded; a full buffer (`_buffer_has_space`, lines 87-88)
is reported and the event discarded; otherwise the fragment is appended
and `_post_text_with_keyboard` records the new prompt identity `mid`
(lines 90-99). -/
def handleInbound (s : Session) (e : InboundEvent) (mid : Nat × Nat) :
    Session × InboundOutcome :=
  if eventText e = "" then (s, .notRecognized)
  else if s.buffer.length < MAX_BUFFER_ITEMS then
    ({ buffer := s.buffer ++ [eventText e], lastKb := some mid }, .added)
  else (s, .bufferFull)

/-- Fold a sequence of inbound events over a session. -/
def runInbound (s : Session) : List (InboundEvent × Nat × Nat) → Session
  | [] => s
  | (e, mid) :: es => runInbound (handleInbound s e mid).1 es

/-- Fallback row built by `append_task` (sheets_api.py lines 46-53):
timestamp, four blank structured columns, raw description last. -/
def append_task (ts raw_description : String) : List String :=
  [ts, "", "", "", "", raw_description]

/-- Structured row built by `append_task_structured` (sheets_api.py lines
58-70): timestamp then the five fields in order. -/
def append_task_structured (ts name tag deadline priority description : String) :
    List String :=
  [ts, name, tag, deadline, priority, description]

/-- Outcomes of the external collaborators during one commit:
`analyze_task_with_ai` (None on failure), and whether each sheet append
returns without raising. -/
structure CommitEnv where
  aiResult : Option String
  structuredOk : Bool
  fallbackOk : Bool
deriving Repr, DecidableEq

/-- User-visible outcome of the `new_task` button handler. -/
inductive CommitOutcome where
  | emptyWarned
  | structuredSaved
  | fallbackSaved
  | persistError
deriving Repr, DecidableEq

/-- Result of one commit attempt: the updated session, the rows actually
appended to the sheet (in order), and the reported outcome. -/
structure CommitResult where
  session : Session
  appendedRows : List (List String)
  outcome : CommitOutcome
deriving Repr, DecidableEq

/-- The fallback branch of the `new_task` handler (main.py lines 333-341):
on append success clear the buffer, otherwise leave the session intact and
report a persistence error. -/
def fallbackPersist (env : CommitEnv) (ts : String) (s : Session) (raw : String) :
    CommitResult :=
  if env.fallbackOk then
    ⟨{ s with buffer := [] }, [append_task ts raw], .fallbackSaved⟩
  else ⟨s, [], .persistError⟩

/-- The `new_task` branch of the button handler (main.py lines 299-342):
warn on an empty buffer; otherwise join the buffer, call the AI, parse a
non-empty AI answer, try the structured append (clearing the buffer on
success), and fall back to the raw append on any failure.
`_remove_old_keyboard` performs only a remote message edit and leaves the
session state untouched. -/
def newTask (env : CommitEnv) (ts : String) (s : Session) : CommitResult :=
  if s.buffer = [] then ⟨s, [], .emptyWarned⟩
  else
    let raw := joinNl s.buffer
    match env.aiResult with
    | some st =>
      if st = "" then fallbackPersist env ts s raw
      else
        match parseAiStructuredText st with
        | some f =>
          if env.structuredOk then
            ⟨{ s with buffer := [] },
             [append_task_structured ts f.name f.tag f.deadline f.priority f.description],
             .structuredSaved⟩
          else fallbackPersist env ts s raw
        | none => fallbackPersist env ts s raw
    | none => fallbackPersist env ts s raw

/-- The `clear_buf` branch of the button handler (main.py lines 293-297):
`buf.clear()` then `_remove_old_keyboard`, which only edits the previous
message's reply markup remotely and does not modify `user_data`, so
`last_kb_chat_id` and `last_kb_message_id` stay recorded. -/
def clearBufAction (s : Session) : Session :=
  { s with buffer := [] }

/- Helper lemmas -/

lemma takeField_eq_empty (lines : List String) (lab : String)
    (h : ∀ ln ∈ lines, startsWithCI ln lab = false) :
    takeField lines lab = "" := by
  have hn : lines.find? (fun ln => startsWithCI ln lab) = none :=
    List.find?_eq_none.mpr fun x hx => by simp [h x hx]
  simp [takeField, hn]

lemma parse_eq_some (s : String) (f : Fields)
    (hf : parseAiStructuredText s = some f) : f = parsedFields s := by
  unfold parseAiStructuredText at hf
  split at hf
  · exact absurd hf (by simp)
  · split at hf
    · exact absurd hf (by simp)
    · exact (Option.some.inj hf).symm

lemma descExtract_eq_none (lines : List String)
    (h : ∀ ln ∈ lines, startsWithCI ln "Опис:" = false) :
    descExtract lines = none := by
  induction lines with
  | nil => rfl
  | cons x xs ih =>
    have hx := h x (List.mem_cons_self x xs)
    simp only [descExtract, hx]
    exact ih fun ln hln => h ln (List.mem_cons_of_mem _ hln)

lemma descExtract_append (pre post : List String) (d : String)
    (hpre : ∀ ln ∈ pre, startsWithCI ln "Опис:" = false)
    (hd : startsWithCI d "Опис:" = true) :
    descExtract (pre ++ d :: post) =
      some (pyStrip (dropChars d (String.length "Опис:")), post) := by
  induction pre with
  | nil => simp [descExtract, hd]
  | cons x xs ih =>
    have hx := hpre x (List.mem_cons_self x xs)
    simp only [List.cons_append, descExtract, hx]
    simp only [Bool.false_eq_true, if_false]
    exact ih fun ln hln => hpre ln (List.mem_cons_of_mem _ hln)

lemma takeField_append_skip (pre post : List String) (lab : String)
    (h : ∀ ln ∈ pre, startsWithCI ln lab = false) :
    takeField (pre ++ post) lab = takeField post lab := by
  have hn : pre.find? (fun ln => startsWithCI ln lab) = none :=
    List.find?_eq_none.mpr fun x hx => by simp [h x hx]
  simp [takeField, List.find?_append, hn]

lemma runInbound_buffer_le (es : List (InboundEvent × Nat × Nat)) :
    ∀ s : Session, s.buffer.length ≤ MAX_BUFFER_ITEMS →
      (runInbound s es).buffer.length ≤ MAX_BUFFER_ITEMS := by
  induction es with
  | nil => exact fun s h => h
  | cons p es ih =>
    intro s h
    obtain ⟨e, mid⟩ := p
    refine ih _ ?_
    unfold handleInbound
    split
    · exact h
    · split
      · next hlt => simpa using hlt
      · exact h

/- Claim theorems -/

/-- C5: for every input text containing no line that starts
(case-insensitively) with the Name label "Назва:", the structured-field
parser returns a rejection, regardless of which other labeled fields are
present. -/
theorem parser_rejects_without_name (s : String)
    (h : ∀ ln ∈ linesOf s, startsWithCI ln "Назва:" = false) :
    parseAiStructuredText s = none := by
  unfold parseAiStructuredText
  split
  · rfl
  · rw [if_pos (takeField_eq_empty _ _ h)]

/-- Witness for C5 at the concrete input "Тег: a\nОпис: b". -/
theorem parser_rejects_without_name_witness :
    parseAiStructuredText "Тег: a\nОпис: b" = none :=
  parser_rejects_without_name "Тег: a\nОпис: b" (by decide)

/-- C6: the input "Назва: Fix light\nОпис: replace bulb" parses to a valid
record with tag "#інше", deadline "не вказано" and priority normal
("звичайний"); in general a missing Tag line defaults the tag to "#інше",
a missing Deadline line defaults the deadline to "не вказано", a missing
Priority line defaults the priority to normal, and a missing Description
line defaults the description to "(без опису)". -/
theorem parser_defaults :
    parseAiStructuredText "Назва: Fix light\nОпис: replace bulb" =
      some ⟨"Fix light", "#інше", "не вказано", "звичайний", "replace bulb"⟩ ∧
    ∀ s f, parseAiStructuredText s = some f →
      ((∀ ln ∈ linesOf s, startsWithCI ln "Тег:" = false) → f.tag = "#інше") ∧
      ((∀ ln ∈ linesOf s, startsWithCI ln "Дедлайн:" = false) →
        f.deadline = "не вказано") ∧
      ((∀ ln ∈ linesOf s, startsWithCI ln "Пріоритет:" = false) →
        f.priority = "звичайний") ∧
      ((∀ ln ∈ linesOf s, startsWithCI ln "Опис:" = false) →
        f.description = "(без опису)") := by
  refine ⟨by decide, ?_⟩
  intro s f hf
  rw [parse_eq_some s f hf]
  refine ⟨?_, ?_, ?_, ?_⟩
  · intro h
    simp only [parsedFields, takeField_eq_empty _ _ h]
    decide
  · intro h
    simp only [parsedFields, takeField_eq_empty _ _ h]
    decide
  · intro h
    simp only [parsedFields, takeField_eq_empty _ _ h]
    decide
  · intro h
    simp only [parsedFields, rawDescription, descExtract_eq_none _ h,
      takeField_eq_empty _ _ h]
    simp

/-- Witness for C6 applying the general defaults at the concrete input. -/
theorem parser_defaults_witness :
    Fields.tag ⟨"Fix light", "#інше", "не вказано", "звичайний", "replace bulb"⟩ =
      "#інше" :=
  (parser_defaults.2 "Назва: Fix light\nОпис: replace bulb"
    ⟨"Fix light", "#інше", "не вказано", "звичайний", "replace bulb"⟩
    (by decide)).1 (by decide)

/-- C7: tag normalization is idempotent prefixing.  A parsed tag value
"246" yields tag "#246" and a parsed tag value "#246" also yields "#246";
for every non-empty tag value the normalized tag starts with "#", and the
"#" is prepended exactly when the value does not already start with one. -/
theorem tag_normalization :
    (parseAiStructuredText "Назва: x\nТег: 246").map Fields.tag = some "#246" ∧
    (parseAiStructuredText "Назва: x\nТег: #246").map Fields.tag = some "#246" ∧
    ∀ t : String, t ≠ "" →
      strStartsWith (normalizeTag t) "#" = true ∧
      (strStartsWith t "#" = true → normalizeTag t = t) ∧
      (strStartsWith t "#" = false → normalizeTag t = "#" ++ t) := by
  refine ⟨by decide, by decide, ?_⟩
  intro t ht
  unfold normalizeTag
  simp only [if_neg ht]
  rcases Bool.eq_false_or_eq_true (strStartsWith t "#") with hb | hb
  · rw [if_neg (by simp [hb])]
    exact ⟨hb, fun _ => rfl, fun h => by simp [h] at hb⟩
  · rw [if_pos ⟨ht, hb⟩]
    refine ⟨?_, fun h => by simp [h] at hb, fun _ => rfl⟩
    obtain ⟨l⟩ := t
    simp [strStartsWith, List.isPrefixOf]

/-- Witness for C7 at the concrete non-empty tag value "246". -/
theorem tag_normalization_witness :
    strStartsWith (normalizeTag "246") "#" = true :=
  (tag_normalization.2.2 "246" (by decide)).1

/-- C3 counterexample: a priority line whose value is "терміново" does not
yield priority high ("високий"); the parser returns normal ("звичайний"),
and likewise "цього тижня" yields normal rather than medium. -/
theorem priority_derivation_counterexample :
    (parseAiStructuredText "Назва: задача\nПріоритет: терміново").map Fields.priority =
      some "звичайний" ∧
    ¬ ((parseAiStructuredText "Назва: задача\nПріоритет: терміново").map Fields.priority =
      some "високий") ∧
    (parseAiStructuredText "Назва: задача\nПріоритет: цього тижня").map Fields.priority =
      some "звичайний" := by
  refine ⟨by decide, by decide, by decide⟩

/-- C3 amended: priority is derived by case-insensitive substring matching
on the parser's output vocabulary, not on urgency words of the inbound
message.  A priority value containing "висок" yields high ("високий"); one
without "висок" but containing "сер" yields medium ("середній"); anything
else — including "терміново", "цього тижня" and the empty value — yields
normal ("звичайний"). -/
theorem priority_derivation :
    normalizePriority "терміново" = "звичайний" ∧
    normalizePriority "цього тижня" = "звичайний" ∧
    normalizePriority "" = "звичайний" ∧
    (parseAiStructuredText "Назва: задача\nПріоритет: Високий").map Fields.priority =
      some "високий" ∧
    ∀ p : String,
      (subOccurs ("висок").data (pyLower p).data = true →
        normalizePriority p = "високий") ∧
      (subOccurs ("висок").data (pyLower p).data = false →
        subOccurs ("сер").data (pyLower p).data = true →
        normalizePriority p = "середній") ∧
      (subOccurs ("висок").data (pyLower p).data = false →
        subOccurs ("сер").data (pyLower p).data = false →
        normalizePriority p = "звичайний") := by
  refine ⟨by decide, by decide, by decide, by decide, ?_⟩
  intro p
  refine ⟨fun h1 => ?_, fun h1 h2 => ?_, fun h1 h2 => ?_⟩
  · simp [normalizePriority, h1]
  · simp [normalizePriority, h1, h2]
  · unfold normalizePriority
    rw [if_neg (by simp [h1]), if_neg (by simp [h2])]
    split
    · rfl
    · rfl

/-- Witness for C3's amended theorem at the concrete value "високий". -/
theorem priority_derivation_witness :
    normalizePriority "високий" = "високий" :=
  (priority_derivation.2.2.2.2 "високий").1 (by decide)

/-- C8: the fallback row and the structured row have the same column count
(six).  The fallback row is the timestamp, four blank structured columns,
and the raw text as the final column; the structured row is the timestamp
followed by the five StructuredTask fields in order. -/
theorem row_shapes (ts raw name tag deadline priority description : String) :
    (append_task ts raw).length =
      (append_task_structured ts name tag deadline priority description).length ∧
    (append_task ts raw).length = 6 ∧
    append_task ts raw = [ts, "", "", "", "", raw] ∧
    (append_task ts raw).getLast? = some raw ∧
    append_task_structured ts name tag deadline priority description =
      [ts, name, tag, deadline, priority, description] :=
  ⟨rfl, rfl, rfl, rfl, rfl⟩

/-- C4 counterexample: after the clear action the session still records the
previous last-prompt reference; the tracked identity is not removed from
session state. -/
theorem clear_action_counterexample :
    ¬ ((clearBufAction ⟨["запис"], some (10, 42)⟩).lastKb = none) := by
  decide

/-- C4 amended: the clear action empties the draft buffer and performs
only a best-effort remote edit stripping the previous prompt's buttons;
the tracked last-prompt identity in session state is left unchanged. -/
theorem clear_action_state (s : Session) :
    (clearBufAction s).buffer = [] ∧ (clearBufAction s).lastKb = s.lastKb :=
  ⟨rfl, rfl⟩

/-- C9: triggering the commit action on an empty buffer is a no-op beyond
the warning: the result does not depend on the AI or persistence
collaborators, no row is appended, and the session (buffer and last-prompt
reference) is returned unchanged. -/
theorem empty_commit_noop (env : CommitEnv) (ts : String) (s : Session)
    (h : s.buffer = []) :
    newTask env ts s = ⟨s, [], CommitOutcome.emptyWarned⟩ := by
  unfold newTask
  rw [if_pos h]

/-- Witness for C9 at a concrete empty session. -/
theorem empty_commit_noop_witness :
    newTask ⟨some "Назва: x", true, true⟩ "2024-01-01 00:00:00" ⟨[], some (1, 2)⟩ =
      ⟨⟨[], some (1, 2)⟩, [], CommitOutcome.emptyWarned⟩ :=
  empty_commit_noop ⟨some "Назва: x", true, true⟩ "2024-01-01 00:00:00"
    ⟨[], some (1, 2)⟩ rfl

/-- C2: over every sequence of inbound append events starting from the
empty buffer the draft buffer never holds more than 3 fragments, and an
append attempted when the buffer already holds 3 fragments is rejected
with the buffer-full warning, leaving the session unchanged. -/
theorem buffer_capacity (es : List (InboundEvent × Nat × Nat)) (s : Session)
    (h3 : s.buffer.length = MAX_BUFFER_ITEMS) (e : InboundEvent)
    (mid : Nat × Nat) (he : eventText e ≠ "") :
    (runInbound ⟨[], none⟩ es).buffer.length ≤ MAX_BUFFER_ITEMS ∧
    handleInbound s e mid = (s, InboundOutcome.bufferFull) := by
  constructor
  · exact runInbound_buffer_le es _ (by simp)
  · unfold handleInbound
    rw [if_neg he, if_neg (by simp [h3])]

/-- Witness for C2: a fourth text append on a session holding three
fragments is rejected. -/
theorem buffer_capacity_witness :
    handleInbound ⟨["a", "b", "c"], none⟩ (InboundEvent.textMsg "d") (7, 9) =
      (⟨["a", "b", "c"], none⟩, InboundOutcome.bufferFull) :=
  (buffer_capacity [] ⟨["a", "b", "c"], none⟩ rfl (InboundEvent.textMsg "d")
    (7, 9) (by decide)).2

/-- C1: in a commit triggered on a non-empty buffer, the buffer is cleared
if and only if some persistence call appended a row; if both the
structured append and the fallback append fail, the buffer retains its
pre-commit contents exactly and nothing was appended; and after any commit
whose persistence step succeeded, the buffer is empty. -/
theorem commit_clear_iff_persist (env : CommitEnv) (ts : String) (s : Session)
    (h : s.buffer ≠ []) :
    ((newTask env ts s).session.buffer = [] ↔
      (newTask env ts s).appendedRows ≠ []) ∧
    (((newTask env ts s).outcome = CommitOutcome.structuredSaved ∨
      (newTask env ts s).outcome = CommitOutcome.fallbackSaved) →
      (newTask env ts s).session.buffer = []) ∧
    (env.structuredOk = false → env.fallbackOk = false →
      (newTask env ts s).session.buffer = s.buffer ∧
      (newTask env ts s).appendedRows = []) := by
  obtain ⟨ai, so, fo⟩ := env
  unfold newTask fallbackPersist
  rw [if_neg h]
  cases ai with
  | none => cases fo <;> simp_all
  | some st =>
    by_cases hst : st = ""
    · subst hst
      cases fo <;> simp_all
    · cases hps : parseAiStructuredText st with
      | none => cases fo <;> simp_all
      | some f => cases so <;> cases fo <;> simp_all

/-- Witness for C1: AI unavailable and fallback persistence succeeding
clears a concrete one-fragment buffer, with exactly the fallback row
appended. -/
theorem commit_clear_iff_persist_witness :
    ((newTask ⟨none, false, true⟩ "ts" ⟨["test note"], none⟩).session.buffer = [] ↔
      (newTask ⟨none, false, true⟩ "ts" ⟨["test note"], none⟩).appendedRows ≠ []) :=
  (commit_clear_iff_persist ⟨none, false, true⟩ "ts" ⟨["test note"], none⟩
    (by decide)).1

/-- C10: when a description line is present, the resulting description is
that line's remainder joined (with newlines, then stripped) with every
subsequent non-empty line of the input, including lines that themselves
start with other field labels; and the per-field scans run over the full
line list, so a label line appearing after the first description line
still supplies its own field. -/
theorem description_swallows_later_lines (s : String) (pre post : List String)
    (d : String) (hsplit : linesOf s = pre ++ d :: post)
    (hpre : ∀ ln ∈ pre, startsWithCI ln "Опис:" = false)
    (hd : startsWithCI d "Опис:" = true)
    (f : Fields) (hf : parseAiStructuredText s = some f)
    (hne : pyStrip (joinNl (pyStrip (dropChars d (String.length "Опис:")) :: post)) ≠ "") :
    f.description =
      pyStrip (joinNl (pyStrip (dropChars d (String.length "Опис:")) :: post)) ∧
    ∀ lab : String, (∀ ln ∈ pre, startsWithCI ln lab = false) →
      startsWithCI d lab = false →
      takeField (linesOf s) lab = takeField post lab := by
  constructor
  · rw [parse_eq_some s f hf]
    simp only [parsedFields, hsplit, rawDescription,
      descExtract_append pre post d hpre hd]
    rw [if_neg hne]
  · intro lab h1 h2
    rw [hsplit, show pre ++ d :: post = (pre ++ [d]) ++ post by simp]
    apply takeField_append_skip
    intro ln hln
    rcases List.mem_append.mp hln with hln | hln
    · exact h1 ln hln
    · rw [List.mem_singleton.mp hln]
      exact h2

/-- Witness for C10: in "Назва: a\nОпис: d\nДедлайн: завтра" the deadline
line follows the description line, is swallowed into the description, and
is still scanned as the deadline field. -/
theorem description_swallows_later_lines_witness :
    takeField (linesOf "Назва: a\nОпис: d\nДедлайн: завтра") "Дедлайн:" =
      takeField ["Дедлайн: завтра"] "Дедлайн:" :=
  (description_swallows_later_lines "Назва: a\nОпис: d\nДедлайн: завтра"
    ["Назва: a"] ["Дедлайн: завтра"] "Опис: d" (by decide) (by decide)
    (by decide) ⟨"a", "#інше", "завтра", "звичайний", "d\nДедлайн: завтра"⟩
    (by decide) (by decide)).2 "Дедлайн:" (by decide) (by decide)
